import Mathlib

/-!
# LightLightShow — verification of the lighting/audio engine

Shallow embedding of the audio-reactive lighting controller
(`src/artnet/*.py`, `src/audio/*.py`, `src/utils/file_manager.py`).
Python floats are modelled as `ℚ`, Python ints as `ℤ`, the 512-cell DMX
buffer as a function `ℤ → ℤ` written only at indices in `[0, 511]`.
Each definition is translated from the named source function.
-/

namespace LLS

/-- `max(0, min(255, value))` as used throughout the DMX code. -/
def clamp255 (v : ℤ) : ℤ := max 0 (min 255 v)

/-- Python `int()` on a rational: truncation toward zero. -/
def pyInt (q : ℚ) : ℤ := if 0 ≤ q then ⌊q⌋ else -⌊-q⌋

/-- The DMX universe buffer (`DMXController.dmx_buffer`), indexed 0-based. -/
def Buffer : Type := ℤ → ℤ

/-- All-zero buffer (`np.zeros(512)`). -/
def emptyBuffer : Buffer := fun _ => 0

/-- Pointwise write to the buffer. -/
def writeB (b : Buffer) (i v : ℤ) : Buffer := fun j => if j = i then v else b j

/-- Per-fixture decay record installed by `send_kick_flash`
(`fixture['decay'] = {...}` in art_net_manager.py). -/
structure DecayRecord where
  start_channels : List (String × ℤ)
  target_channels : List (String × ℤ)
  duration : ℚ
  ticks : ℕ
  priority_flash : Bool
deriving DecidableEq, Repr

/-- A fixture descriptor, including the dynamic flags that
`art_net_manager.py` attaches to the fixture dictionary
(`flash_override`, `sequence_paused`, `decay`, ...). -/
structure Fixture where
  name : String
  startChannel : ℤ
  /-- `fixture['channels']`: color name → relative offset. -/
  channels : List (String × ℤ)
  responds_to_kicks : Bool := false
  flash_override : Bool := false
  flash_override_end : ℚ := 0
  sequence_paused : Bool := false
  sequence_resume_time : ℚ := 0
  decay : Option DecayRecord := none
deriving DecidableEq, Repr

/-- `DMXController.set_channel` (dmx_controller.py:97-103): accepts a
1-based channel in `[1, 512]`, writes the clamped value at index
`channel - 1`; any other channel number is rejected (warning only). -/
def set_channel (buf : Buffer) (channel value : ℤ) : Buffer :=
  if 1 ≤ channel ∧ channel ≤ 512 then writeB buf (channel - 1) (clamp255 value)
  else buf

/-- `DMXController.apply_channels_to_fixture` (dmx_controller.py:112-148):
for each `(color, value)` pair, if the color exists in the fixture's
channel map, compute the 0-based buffer index
`startChannel + offset - 2`; write the clamped value when the index is
in `[0, 511]`, otherwise skip that single write.  The source signature
takes only `(fixture, channels)` — there is no `force` parameter. -/
def apply_channels_to_fixture (buf : Buffer) (f : Fixture)
    (channels : List (String × ℤ)) : Buffer :=
  channels.foldl (fun b p =>
    match List.lookup p.1 f.channels with
    | some off =>
        let idx := f.startChannel + off - 2
        if 0 ≤ idx ∧ idx < 512 then writeB b idx (clamp255 p.2) else b
    | none => b) buf

/-- Index `i` is addressable by fixture `f` (some color offset maps to it). -/
def fixture_targets (f : Fixture) (i : ℤ) : Prop :=
  ∃ p ∈ f.channels, i = f.startChannel + p.2 - 2

/-- No entry of the channel list `l` resolves (through `f`'s channel map)
to buffer index `i`. -/
def notWritesAt (f : Fixture) (l : List (String × ℤ)) (i : ℤ) : Prop :=
  ∀ p ∈ l, ∀ off, List.lookup p.1 f.channels = some off →
    f.startChannel + off - 2 ≠ i

/-- `ArtNetClient.send_dmx` (art_net_client.py:35-100), packet
construction only.  Input data is taken through the `list` branch
(`[int(x) for x in data[:512]]`), padded with zeros to 512 entries; the
packet is header `'Art-Net\x00'`, opcode `0x5000` little-endian,
protocol version 14 big-endian, sequence 0, physical 0, universe
little-endian u16 (`struct.pack` raises for a value outside `[0, 65535]`,
caught by the surrounding `except`, hence `none`), length 512 big-endian,
then each data byte clamped by `int(max(0, min(255, value)))`. -/
def send_dmx_packet (univ : ℕ) (data : List ℤ) : Option (List ℕ) :=
  if univ < 65536 then
    some (0x41 :: 0x72 :: 0x74 :: 0x2D :: 0x4E :: 0x65 :: 0x74 :: 0x00 ::
          0x00 :: 0x50 ::
          0x00 :: 0x0E ::
          0 :: 0 ::
          (univ % 256) :: (univ / 256) ::
          0x02 :: 0x00 ::
          (data.take 512 ++
            List.replicate (512 - (data.take 512).length) (0 : ℤ)).map
            (fun v => (clamp255 v).toNat))
  else none

/-- `SceneManager.channel_mapping` (scene_manager.py:15-20) with the
`dict.get(short, short)` fallback. -/
def channel_mapping (s : String) : String :=
  if s = "r" then "red"
  else if s = "g" then "green"
  else if s = "b" then "blue"
  else if s = "w" then "white"
  else s

/-- Channel conversion inside `SceneManager.apply_scene_to_fixtures`
(scene_manager.py:66-71): each short-named scene value becomes
`max(0, min(255, int(base_value * intensity_multiplier)))` under its
long name. -/
def scene_channels_to_apply (scene_channels : List (String × ℤ))
    (intensity_multiplier : ℚ) : List (String × ℤ) :=
  scene_channels.map (fun p =>
    (channel_mapping p.1, clamp255 (pyInt ((p.2 : ℚ) * intensity_multiplier))))

/-- `SceneManager.apply_scene_to_fixtures` (scene_manager.py:39-89),
buffer effect: the converted channels are applied to every fixture via
the DMX callback `apply_channels_to_fixture`. -/
def apply_scene_to_fixtures (buf : Buffer) (scene_channels : List (String × ℤ))
    (fixtures : List Fixture) (intensity_multiplier : ℚ) : Buffer :=
  fixtures.foldl
    (fun b f => apply_channels_to_fixture b f
      (scene_channels_to_apply scene_channels intensity_multiplier)) buf

/-- Availability filter of `SequenceManager._apply_sequence_step`
(sequence_manager.py:188-224): a fixture is skipped when its name is
empty, its flash override has not expired, its name is in the global
`priority_fixtures` set, or its sequence pause has not expired. -/
def fixture_available (prio : List String) (now : ℚ) (f : Fixture) : Bool :=
  !(f.name == "") &&
  !(f.flash_override && decide (now < f.flash_override_end)) &&
  !(prio.contains f.name) &&
  !(f.sequence_paused && decide (now < f.sequence_resume_time))

/-- The `available_fixtures` list built by `_apply_sequence_step`. -/
def available_fixtures (fixtures : List Fixture) (prio : List String)
    (now : ℚ) : List Fixture :=
  fixtures.filter (fixture_available prio now)

/-- `SequenceManager._apply_sequence_step` (sequence_manager.py:178-229):
`final_intensity = intensity * step_multiplier`, then
`apply_scene_to_fixtures(scene, available_fixtures, final_intensity)`. -/
def apply_sequence_step (buf : Buffer) (fixtures : List Fixture)
    (prio : List String) (now : ℚ) (scene_channels : List (String × ℤ))
    (intensity step_multiplier : ℚ) : Buffer :=
  apply_scene_to_fixtures buf scene_channels
    (available_fixtures fixtures prio now) (intensity * step_multiplier)

/-- Per-band entry of `SequenceManager.active_sequences`
(sequence_manager.py:50-57). -/
structure SeqInfo where
  sequence : String
  step_index : ℕ
  last_step_time : ℚ
  intensity : ℚ
  base_intensity : ℚ
deriving DecidableEq, Repr

/-- `SequenceManager.start_sequence` (sequence_manager.py:41-64):
looks the sequence up by name (`none` = "not found", returns False);
on success stores step index 0, the current time as step entry time,
and the raw `base_intensity` argument as both `intensity` and
`base_intensity`. -/
def start_sequence (sequences : List String) (sequence_name : String)
    (now base_intensity : ℚ) : Option SeqInfo :=
  if sequence_name ∈ sequences then
    some ⟨sequence_name, 0, now, base_intensity, base_intensity⟩
  else none

/-- `SequenceManager.update_sequence_intensity` (sequence_manager.py:81-91). -/
def update_sequence_intensity (st : SeqInfo) (intensity : ℚ) : SeqInfo :=
  { st with intensity :=
      if intensity < st.base_intensity * (1/2) then intensity
      else max intensity st.base_intensity }

/-- Spec-side clamping rule (spec §4.5 `start_sequence` /
`update_intensity`): raw intensity below half the base is accepted,
otherwise `max(intensity, base_intensity)`.  Stated from the spec's
words, to be compared with the source definitions above. -/
def spec_clamp_rule (intensity base_intensity : ℚ) : ℚ :=
  if intensity < (1/2) * base_intensity then intensity
  else max intensity base_intensity

/-- Bounded-deque push (`collections.deque(maxlen=n)`): append, dropping
from the front beyond the capacity. -/
def deque_push (maxlen : ℕ) (h : List ℚ) (x : ℚ) : List ℚ :=
  let h := h ++ [x]
  if maxlen < h.length then h.drop (h.length - maxlen) else h

/-- `np.mean` of a rational list. -/
def listMean (l : List ℚ) : ℚ := l.sum / l.length

/-- Python `xs[-n:]`. -/
def lastN (n : ℕ) (l : List ℚ) : List ℚ := l.drop (l.length - n)

/-- State of `KickDetector` relevant to kick emission
(kick_detector.py:16-70); defaults from the constructor. -/
structure KickState where
  last_kick_time : ℚ
  env_history : List ℚ
  threshold : ℚ := 15/100
  min_energy : ℚ := 5/1000
  refractory : ℚ := 15/100
  high_frequency_mode : Bool := true
  quick_detection_threshold : ℚ := 1/10
deriving DecidableEq, Repr

/-- Adaptive threshold of the quick-detection path
(kick_detector.py:183-188): `max(quick_detection_threshold,
mean(env_history[-10:]) * 1.5)` once ten envelopes are recorded. -/
def adaptive_threshold (st : KickState) : ℚ :=
  if 10 ≤ st.env_history.length then
    max st.quick_detection_threshold (listMean (lastN 10 st.env_history) * (3/2))
  else st.quick_detection_threshold

/-- Kick-emission decision of `KickDetector.process_block`
(kick_detector.py:107-211) given the computed RMS envelope `env` and
fused score `combined`: the envelope is pushed into the history, then
the quick-detection path (active in `high_frequency_mode`) fires when
`env > min_energy * 0.5`, `combined > adaptive_threshold`, and
`now - last_kick_time > refractory * 0.7`; otherwise the normal path
fires when `env > min_energy`, `now - last_kick_time > refractory`, and
`combined > threshold`.  On emission `last_kick_time` is set to `now`. -/
def process_block_kick (st : KickState) (env combined now : ℚ) :
    Bool × KickState :=
  let st := { st with env_history := deque_push 10 st.env_history env }
  if st.high_frequency_mode = true ∧ env > st.min_energy * (1/2) ∧
     combined > adaptive_threshold st ∧
     now - st.last_kick_time > st.refractory * (7/10) then
    (true, { st with last_kick_time := now })
  else if env > st.min_energy ∧ now - st.last_kick_time > st.refractory ∧
          combined > st.threshold then
    (true, { st with last_kick_time := now })
  else (false, st)

/-- Per-band entry of `AudioProcessor.auto_thresholds`
(processor.py:42-47). -/
structure ThresholdState where
  value : ℚ
  auto : Bool
  history : List ℚ
deriving DecidableEq, Repr

/-- `np.percentile(a, p)` with the default linear interpolation:
sort, take rank `p/100 * (n-1)`, linearly interpolate between the
surrounding order statistics. -/
def np_percentile (xs : List ℚ) (p : ℚ) : ℚ :=
  let s := xs.mergeSort (fun a b => decide (a ≤ b))
  let n := s.length
  if n = 0 then 0
  else
    let rank := p * ((n : ℚ) - 1) / 100
    let i := (⌊rank⌋).toNat
    let frac := rank - ⌊rank⌋
    if i + 1 < n then s.getD i 0 + frac * (s.getD (i + 1) 0 - s.getD i 0)
    else s.getD (n - 1) 0

/-- One band's update in `AudioProcessor._update_auto_thresholds`
(processor.py:276-309): skip non-auto bands; push the level into the
bounded (300) history; once 100 samples are present, propose
`median + 0.15 * IQR`, rate-limit the move to at most 0.03 from the
current value, then clamp to `[0.05, 0.7]`. -/
def update_auto_threshold (st : ThresholdState) (level : ℚ) : ThresholdState :=
  if st.auto = false then st
  else
    let history := deque_push 300 st.history level
    if 100 ≤ history.length then
      let p25 := np_percentile history 25
      let p75 := np_percentile history 75
      let med := np_percentile history 50
      let iqr := p75 - p25
      let nt := med + (15/100) * iqr
      let nt := if |nt - st.value| > 3/100 then
                  (if nt > st.value then st.value + 3/100 else st.value - 3/100)
                else nt
      let nt := max (5/100) (min (7/10) nt)
      { value := nt, auto := st.auto, history := history }
    else { st with history := history }

/-- `AudioProcessor.set_threshold` (processor.py:586-591): stores the
manual value and marks the band non-auto. -/
def set_threshold (st : ThresholdState) (v : ℚ) : ThresholdState :=
  { st with value := v, auto := false }

/-- Per-band entry of `AudioProcessor.fade_detection`
(processor.py:50-61); defaults from the constructor. -/
structure FadeState where
  silence_duration : ℚ
  silence_threshold : ℚ := 1/20
  fade_start_delay : ℚ := 3
  fade_duration : ℚ := 5
  in_fade : Bool
  fade_start_time : ℚ
  last_update_time : ℚ
deriving DecidableEq, Repr

/-- Fade events produced by `_trigger_fade_event` (processor.py:359). -/
inductive FadeEvent where
  | update (intensity : ℚ)
  | complete
deriving DecidableEq, Repr

/-- `AudioProcessor._analyze_fade_to_black` (processor.py:315-357):
accumulate silence time below the threshold and start the fade after
the start delay; any non-quiet level resets the counter and clears
`in_fade`; while fading, emit `fade_update(1 - progress)` and, at
progress 1, `fade_complete`. -/
def analyze_fade_to_black (st : FadeState) (level now : ℚ) :
    FadeState × List FadeEvent :=
  let dt := now - st.last_update_time
  let st := { st with last_update_time := now }
  let st :=
    if level < st.silence_threshold then
      let st := { st with silence_duration := st.silence_duration + dt }
      if st.fade_start_delay ≤ st.silence_duration ∧ st.in_fade = false then
        { st with in_fade := true, fade_start_time := now }
      else st
    else { st with silence_duration := 0, in_fade := false }
  if st.in_fade = true then
    let progress := min 1 ((now - st.fade_start_time) / st.fade_duration)
    if 1 ≤ progress then
      ({ st with in_fade := false },
       [FadeEvent.update (1 - progress), FadeEvent.complete])
    else (st, [FadeEvent.update (1 - progress)])
  else (st, [])

/-- Iterated `_analyze_fade_to_black` over a list of
`(level, current_time)` samples, collecting the emitted events. -/
def run_fade : FadeState → List (ℚ × ℚ) → FadeState × List FadeEvent
  | st, [] => (st, [])
  | st, (level, now) :: rest =>
      let r := analyze_fade_to_black st level now
      let r2 := run_fade r.1 rest
      (r2.1, r.2 ++ r2.2)

/-- A Python value handed to `FileManager.save_json` — either a string
(what the signature expects for `filepath`) or a JSON-serializable
dictionary / scalar. -/
inductive PyVal where
  | str (s : String)
  | num (q : ℚ)
  | boolean (b : Bool)
  | none
  | obj (fields : List (String × PyVal))

/-- Files on disk, by path. -/
def FileSystem : Type := List (String × PyVal)

/-- `os.path.dirname`: the part before the final slash (empty for a
bare filename). -/
def os_path_dirname (s : String) : String :=
  let parts := s.splitOn "/"
  if parts.length ≤ 1 then "" else String.intercalate "/" parts.dropLast

/-- `FileManager.save_json(data, filepath, indent=2)`
(file_manager.py:34-47).  The body runs under `try`: it calls
`os.path.dirname(filepath)` — a `TypeError` if `filepath` is not a
string — then `os.makedirs(dirname, exist_ok=True)` — a
`FileNotFoundError` if the dirname is empty — then opens `filepath` and
dumps `data`.  Any exception is caught, logged, and the function
returns `False` with the disk untouched. -/
def save_json (fs : FileSystem) (data filepath : PyVal) : Bool × FileSystem :=
  match filepath with
  | .str path =>
      if os_path_dirname path = "" then (false, fs)
      else (true, (path, data) :: fs)
  | _ => (false, fs)

/-- `KickFlashManager.config` (kick_flash_manager.py:19-33); defaults
from `_load_config`.  `alternate_index` doubles for the manager's
`current_index`, which mirrors it. -/
structure KickFlashConfig where
  enabled : Bool := true
  intensity : ℚ := 8/10
  mode : String := "alternate"
  scenes : List String := ["flash-white"]
  alternate_index : ℕ := 0
deriving DecidableEq, Repr

/-- The `{"kick_flash": self.config}` dictionary built by
`KickFlashManager.save_config`. -/
def config_to_pyval (cfg : KickFlashConfig) : PyVal :=
  .obj [("kick_flash", .obj
    [("enabled", .boolean cfg.enabled),
     ("intensity", .num cfg.intensity),
     ("mode", .str cfg.mode),
     ("scenes", .obj (cfg.scenes.map (fun s => (s, PyVal.str s)))),
     ("alternate_index", .num cfg.alternate_index)])]

/-- `KickFlashManager.save_config` (kick_flash_manager.py:35-38):
`FileManager.save_json('kick_flash_config.json', full_config)` — the
two positional arguments land as `data := 'kick_flash_config.json'`
and `filepath := full_config`, i.e. swapped relative to `save_json`'s
`(data, filepath)` signature. -/
def save_config (fs : FileSystem) (cfg : KickFlashConfig) : Bool × FileSystem :=
  save_json fs (.str "kick_flash_config.json") (config_to_pyval cfg)

/-- `KickFlashManager.set_scenes` (kick_flash_manager.py:74-78). -/
def set_scenes (cfg : KickFlashConfig) (scenes : List String) : KickFlashConfig :=
  { cfg with scenes := scenes, alternate_index := 0 }

/-- `KickFlashManager.set_mode` (kick_flash_manager.py:80-85). -/
def set_mode (cfg : KickFlashConfig) (mode : String) : KickFlashConfig :=
  if mode = "single" ∨ mode = "alternate" ∨ mode = "random" then
    { cfg with mode := mode, alternate_index := 0 }
  else cfg

/-- `KickFlashManager.set_intensity` (kick_flash_manager.py:87-89). -/
def set_intensity (cfg : KickFlashConfig) (intensity : ℚ) : KickFlashConfig :=
  { cfg with intensity := max 0 (min 1 intensity) }

/-- `KickFlashManager.set_enabled` (kick_flash_manager.py:91-93). -/
def set_enabled (cfg : KickFlashConfig) (enabled : Bool) : KickFlashConfig :=
  { cfg with enabled := enabled }

/-- `ArtNetManager.configure_kick_flash` (art_net_manager.py:494-508):
apply each provided setter to the in-memory configuration, then call
`save_config` (whose boolean result is ignored by the source). -/
def configure_kick_flash (fs : FileSystem) (cfg : KickFlashConfig)
    (scenes : Option (List String)) (mode : Option String)
    (intensity : Option ℚ) (enabled : Option Bool) :
    KickFlashConfig × Bool × FileSystem :=
  let cfg := match scenes with | some s => set_scenes cfg s | Option.none => cfg
  let cfg := match mode with | some m => set_mode cfg m | Option.none => cfg
  let cfg := match intensity with | some i => set_intensity cfg i | Option.none => cfg
  let cfg := match enabled with | some e => set_enabled cfg e | Option.none => cfg
  let r := save_config fs cfg
  (cfg, r.1, r.2)

/-- A scene record (`scenes.json` entry) as read by
`SceneManager.get_scene`; `decay` is read with default 0.2 by
`send_kick_flash`. -/
structure Scene where
  name : String
  channels : List (String × ℤ)
  decay : Option ℚ := Option.none
deriving DecidableEq, Repr

/-- `SceneManager.get_scene` (scene_manager.py:27-37). -/
def get_scene (scenes : List Scene) (n : String) : Option Scene :=
  scenes.find? (fun s => s.name == n)

/-- `KickFlashManager.get_next_flash_scene` (kick_flash_manager.py:40-64).
`randIndex` stands for the draw of `random.choice` in `random` mode. -/
def get_next_flash_scene (cfg : KickFlashConfig) (randIndex : ℕ) :
    Option String × KickFlashConfig :=
  if cfg.enabled = false then (Option.none, cfg)
  else match cfg.scenes with
  | [] => (Option.none, cfg)
  | s0 :: _ =>
    if cfg.mode = "single" ∨ cfg.scenes.length = 1 then (some s0, cfg)
    else if cfg.mode = "alternate" then
      let len := cfg.scenes.length
      (some (cfg.scenes.getD (cfg.alternate_index % len) s0),
       { cfg with alternate_index := (cfg.alternate_index + 1) % len })
    else if cfg.mode = "random" then
      (some (cfg.scenes.getD (randIndex % cfg.scenes.length) s0), cfg)
    else (some s0, cfg)

/-- The pieces of `ArtNetManager` state touched by `send_kick_flash`
(art_net_manager.py:42-47 and 388-475). -/
structure ManagerState where
  buffer : Buffer
  fixtures : List Fixture
  priority_fixtures : List String
  sequence_pause : List (String × ℚ)
  kick_flash_active : Bool
  kick_flash_end_time : ℚ
  kick_flash_config : KickFlashConfig
  scenes : List Scene

/-- `ArtNetManager.send_kick_flash` (art_net_manager.py:388-475).  The
body runs inside `try`.  After the enabled / scene / kick-fixture
checks, the code deletes any existing `decay` on the kick-responsive
fixtures, marks the priority system active, and enters the per-fixture
loop.  For the first kick-responsive fixture it records the priority
entries, sets the pause flags (`_force_pause_sequence_on_fixture`,
art_net_manager.py:477-488), computes the flash channels, and then
calls `self.dmx_controller.apply_channels_to_fixture(fixture,
flash_channels, force=True)`.  `DMXController.apply_channels_to_fixture`
(dmx_controller.py:112) accepts only `(fixture, channels)`, so Python
raises `TypeError: unexpected keyword argument` at the call, before any
buffer write; the surrounding `except` catches it and the method
returns `False`.  The model returns the state as mutated up to the
raise: DMX buffer untouched, no decay record installed. -/
def send_kick_flash (st : ManagerState) (now : ℚ) (randIndex : ℕ)
    (intensity_arg : Option ℚ) : Bool × ManagerState :=
  if st.kick_flash_config.enabled = false then (false, st)
  else
    let intensity := intensity_arg.getD st.kick_flash_config.intensity
    let _intensity := min 1 (intensity * (3/2))
    let r := get_next_flash_scene st.kick_flash_config randIndex
    let st := { st with kick_flash_config := r.2 }
    match r.1 with
    | Option.none => (false, st)
    | some sceneName =>
      match get_scene st.scenes sceneName with
      | Option.none => (false, st)
      | some scene =>
        if (st.fixtures.filter (·.responds_to_kicks)).isEmpty then (false, st)
        else
          let decay_duration := scene.decay.getD (1/5)
          let flash_end := now + decay_duration
          let fixtures1 := st.fixtures.map (fun f =>
            if f.responds_to_kicks then { f with decay := Option.none } else f)
          let st := { st with fixtures := fixtures1,
                              kick_flash_active := true,
                              kick_flash_end_time := flash_end }
          match fixtures1.find? (·.responds_to_kicks) with
          | Option.none => (false, st)
          | some f0 =>
            let st := { st with
              priority_fixtures := st.priority_fixtures ++ [f0.name],
              sequence_pause := st.sequence_pause ++ [(f0.name, flash_end)],
              fixtures := st.fixtures.map (fun f =>
                if f.name = f0.name then
                  { f with flash_override := true,
                           flash_override_end := flash_end,
                           sequence_paused := true,
                           sequence_resume_time := flash_end }
                else f) }
            -- apply_channels_to_fixture(..., force=True) raises TypeError here
            (false, st)

/-- Sample times are nondecreasing, starting from `t`. -/
def times_mono : ℚ → List (ℚ × ℚ) → Prop
  | _, [] => True
  | t, (_, n) :: rest => t ≤ n ∧ times_mono n rest

/-- The time of the final sample (or `t` for the empty list). -/
def last_time : ℚ → List (ℚ × ℚ) → ℚ
  | t, [] => t
  | _, (_, n) :: rest => last_time n rest

/-- Spec-side channel formula of §4.5.1 as stated by the claim:
`clamp(round(v × (0.25 + 0.75 × i) × m), 0, 255)` for the normal
regime.  Stated from the spec's words, to be compared with the source
pipeline `apply_sequence_step`. -/
def spec_effective_value (v : ℤ) (i m : ℚ) : ℤ :=
  max 0 (min 255 (round ((v : ℚ) * (1/4 + 3/4 * i) * m)))

/-- Witness fixture: red lands in range (index 509), green out of
range (index 513). -/
def edge_fixture : Fixture :=
  { name := "edge", startChannel := 510, channels := [("red", 1), ("green", 5)] }

/-- Witness fixture at base address 1 with the standard RGBW offsets. -/
def rgbw_fixture : Fixture :=
  { name := "rgbw", startChannel := 1,
    channels := [("red", 1), ("green", 2), ("blue", 3), ("white", 4)] }

/-- Witness fixture currently under a flash override (until t = 10). -/
def flashed_fixture : Fixture :=
  { name := "P", startChannel := 1, channels := [("red", 1)],
    flash_override := true, flash_override_end := 10 }

/-- Witness fixture on a disjoint address range. -/
def plain_fixture : Fixture :=
  { name := "Q", startChannel := 9, channels := [("red", 1)] }

/-- Witness kick-responsive fixture. -/
def kick_fixture : Fixture :=
  { name := "K", startChannel := 1,
    channels := [("red", 1), ("green", 2), ("blue", 3), ("white", 4)],
    responds_to_kicks := true }

/-- Witness flash scene (full white, decay 0.2 s). -/
def flash_scene : Scene :=
  { name := "flash-white", channels := [("w", 255)], decay := some (1/5) }

/-- Witness manager state: default kick-flash config, one
kick-responsive fixture, clean buffer. -/
def manager_state0 : ManagerState :=
  { buffer := emptyBuffer, fixtures := [kick_fixture],
    priority_fixtures := [], sequence_pause := [],
    kick_flash_active := false, kick_flash_end_time := 0,
    kick_flash_config := {}, scenes := [flash_scene] }

/-- Fresh `KickDetector` state (constructor defaults,
`last_kick_time = 0.0`, empty histories). -/
def kick_state0 : KickState := { last_kick_time := 0, env_history := [] }

/-- Fresh per-band fade state (constructor defaults). -/
def fade_state0 : FadeState :=
  { silence_duration := 0, in_fade := false, fade_start_time := 0,
    last_update_time := 0 }

/-! ## Helper lemmas on the DMX buffer operations -/

theorem lookup_mem {l : List (String × ℤ)} {a : String} {b : ℤ}
    (h : List.lookup a l = some b) : (a, b) ∈ l := by
  induction l with
  | nil => simp [List.lookup] at h
  | cons p t ih =>
    obtain ⟨k, v⟩ := p
    rw [List.lookup] at h
    by_cases hak : a = k
    · subst hak
      simp at h
      simp [h]
    · have hb : (a == k) = false := by simpa using hak
      rw [hb] at h
      simp at h ⊢
      right
      exact ih h

theorem acf_cons (buf : Buffer) (f : Fixture) (p : String × ℤ)
    (l : List (String × ℤ)) :
    apply_channels_to_fixture buf f (p :: l) =
      apply_channels_to_fixture
        (match List.lookup p.1 f.channels with
         | some off =>
             if 0 ≤ f.startChannel + off - 2 ∧ f.startChannel + off - 2 < 512 then
               writeB buf (f.startChannel + off - 2) (clamp255 p.2)
             else buf
         | none => buf) f l := rfl

theorem acf_append (buf : Buffer) (f : Fixture) (l₁ l₂ : List (String × ℤ)) :
    apply_channels_to_fixture buf f (l₁ ++ l₂) =
      apply_channels_to_fixture (apply_channels_to_fixture buf f l₁) f l₂ := by
  simp [apply_channels_to_fixture, List.foldl_append]

theorem writeB_self (b : Buffer) (i v : ℤ) : writeB b i v i = v := by
  simp [writeB]

theorem acf_unchanged {f : Fixture} {i : ℤ} :
    ∀ (l : List (String × ℤ)) (buf : Buffer), notWritesAt f l i →
      apply_channels_to_fixture buf f l i = buf i := by
  intro l
  induction l with
  | nil => intro buf _; rfl
  | cons p t ih =>
    intro buf h
    rw [acf_cons, ih _ (fun q hq => h q (List.mem_cons_of_mem _ hq))]
    have hp := h p (List.mem_cons_self _ _)
    cases hl : List.lookup p.1 f.channels with
    | none => simp only [hl]
    | some off =>
      have hne := hp off hl
      simp only [hl]
      by_cases hr : 0 ≤ f.startChannel + off - 2 ∧ f.startChannel + off - 2 < 512
      · rw [if_pos hr]
        unfold writeB
        rw [if_neg (fun h' => hne h'.symm)]
      · rw [if_neg hr]

theorem acf_out_of_range {f : Fixture} {i : ℤ} (hi : ¬(0 ≤ i ∧ i < 512)) :
    ∀ (l : List (String × ℤ)) (buf : Buffer),
      apply_channels_to_fixture buf f l i = buf i := by
  intro l
  induction l with
  | nil => intro buf; rfl
  | cons p t ih =>
    intro buf
    rw [acf_cons, ih]
    cases hl : List.lookup p.1 f.channels with
    | none => simp only [hl]
    | some off =>
      simp only [hl]
      by_cases hr : 0 ≤ f.startChannel + off - 2 ∧ f.startChannel + off - 2 < 512
      · rw [if_pos hr]
        unfold writeB
        rw [if_neg (fun h' : i = _ => hi (by rw [h']; exact hr))]
      · rw [if_neg hr]

theorem acf_last_write (buf : Buffer) (f : Fixture) (l₁ l₂ : List (String × ℤ))
    (c : String) (v off : ℤ) (hl : List.lookup c f.channels = some off)
    (h0 : 0 ≤ f.startChannel + off - 2) (h512 : f.startChannel + off - 2 < 512)
    (hrest : notWritesAt f l₂ (f.startChannel + off - 2)) :
    apply_channels_to_fixture buf f (l₁ ++ (c, v) :: l₂)
      (f.startChannel + off - 2) = clamp255 v := by
  rw [acf_append, acf_cons, acf_unchanged _ _ hrest]
  simp only [hl]
  rw [if_pos ⟨h0, h512⟩, writeB_self]

theorem clamp255_le_255 (v : ℤ) : clamp255 v ≤ 255 := by
  unfold clamp255; omega

theorem clamp255_nonneg (v : ℤ) : 0 ≤ clamp255 v := by
  unfold clamp255; omega

theorem clamp255_idem (v : ℤ) : clamp255 (clamp255 v) = clamp255 v := by
  unfold clamp255; omega

/-! ## Claim theorems -/

/-- C8: no write ever touches a DMX buffer index outside `[0, 511]`:
`set_channel` rejects channel numbers outside `[1, 512]` (and otherwise
writes the value clamped to `[0, 255]` at index `channel - 1`);
`apply_channels_to_fixture` leaves every out-of-range buffer index
unchanged, and a single out-of-range color is skipped while a remaining
in-range color of the same fixture is still applied, clamped. -/
theorem dmx_index_safety (buf : Buffer) (f : Fixture)
    (l l₁ l₂ : List (String × ℤ)) (ch v i v₀ off : ℤ) (c : String) :
    (¬(1 ≤ ch ∧ ch ≤ 512) → set_channel buf ch v = buf) ∧
    (1 ≤ ch → ch ≤ 512 →
      set_channel buf ch v (ch - 1) = clamp255 v ∧
      0 ≤ clamp255 v ∧ clamp255 v ≤ 255) ∧
    (¬(0 ≤ i ∧ i < 512) → apply_channels_to_fixture buf f l i = buf i) ∧
    (List.lookup c f.channels = some off →
      0 ≤ f.startChannel + off - 2 → f.startChannel + off - 2 < 512 →
      notWritesAt f l₂ (f.startChannel + off - 2) →
      apply_channels_to_fixture buf f (l₁ ++ (c, v₀) :: l₂)
        (f.startChannel + off - 2) = clamp255 v₀) := by
  refine ⟨fun h => ?_, fun h1 h2 => ⟨?_, clamp255_nonneg v, clamp255_le_255 v⟩,
    fun h => acf_out_of_range h l buf,
    fun hl h0 h512 hrest => acf_last_write buf f l₁ l₂ c v₀ off hl h0 h512 hrest⟩
  · unfold set_channel
    rw [if_neg h]
  · unfold set_channel
    rw [if_pos ⟨h1, h2⟩, writeB_self]

/-- Witness for C8 on `edge_fixture` (start channel 510): green resolves
to index 513 and is skipped, red resolves to index 509 and is written;
channel 600 is rejected by `set_channel`. -/
theorem dmx_index_safety_witness :
    apply_channels_to_fixture emptyBuffer edge_fixture
      [("green", 100), ("red", 200)] 509 = clamp255 200 ∧
    apply_channels_to_fixture emptyBuffer edge_fixture
      [("green", 100), ("red", 200)] 513 = emptyBuffer 513 ∧
    set_channel emptyBuffer 600 50 = emptyBuffer := by
  have h := dmx_index_safety emptyBuffer edge_fixture
    [("green", 100), ("red", 200)] [("green", 100)] [] 600 50 513 200 1 "red"
  refine ⟨?_, h.2.2.1 (by decide), h.1 (by decide)⟩
  have h4 := h.2.2.2 (by decide) (by decide) (by decide)
    (by intro p hp; simp at hp)
  norm_num [edge_fixture] at h4
  exact h4

/-- C2: every datagram built by `send_dmx` is exactly 530 bytes; its
first 12 bytes are the literal Art-Net header, opcode `0x5000`
little-endian and protocol version 14 big-endian; then sequence 0,
physical 0, the universe as little-endian u16, the length 512 as
big-endian u16; and every byte lies in `[0, 255]` whatever the input
data values were. -/
theorem artnet_frame_format (u : ℕ) (data : List ℤ) (pkt : List ℕ)
    (h : send_dmx_packet u data = some pkt) :
    pkt.length = 530 ∧
    pkt.take 12 =
      [0x41, 0x72, 0x74, 0x2D, 0x4E, 0x65, 0x74, 0x00, 0x00, 0x50, 0x00, 0x0E] ∧
    pkt.getD 12 0 = 0 ∧ pkt.getD 13 0 = 0 ∧
    pkt.getD 14 0 = u % 256 ∧ pkt.getD 15 0 = u / 256 ∧
    pkt.getD 16 0 = 2 ∧ pkt.getD 17 0 = 0 ∧
    (∀ b ∈ pkt, b ≤ 255) := by
  unfold send_dmx_packet at h
  by_cases hu : u < 65536
  · rw [if_pos hu] at h
    injection h with h
    subst h
    refine ⟨?_, rfl, rfl, rfl, rfl, rfl, rfl, rfl, ?_⟩
    · simp only [List.length_cons, List.length_map, List.length_append,
        List.length_replicate, List.length_take]
      omega
    · intro b hb
      simp only [List.mem_cons] at hb
      rcases hb with rfl | rfl | rfl | rfl | rfl | rfl | rfl | rfl | rfl | rfl |
        rfl | rfl | rfl | rfl | rfl | rfl | rfl | rfl | hb
      all_goals try omega
      rw [List.mem_map] at hb
      obtain ⟨w, -, rfl⟩ := hb
      have hc : clamp255 w ≤ 255 := clamp255_le_255 w
      exact Int.toNat_le.mpr (by exact_mod_cast hc)
  · rw [if_neg hu] at h
    exact absurd h (by simp)

/-- Witness for C2 at universe 0 and empty data. -/
theorem artnet_frame_format_witness :
    ((send_dmx_packet 0 []).getD []).length = 530 ∧
    ((send_dmx_packet 0 []).getD []).take 12 =
      [0x41, 0x72, 0x74, 0x2D, 0x4E, 0x65, 0x74, 0x00, 0x00, 0x50, 0x00, 0x0E] := by
  have h := artnet_frame_format 0 [] ((send_dmx_packet 0 []).getD []) rfl
  exact ⟨h.1, h.2.1⟩

theorem fixture_available_false {f : Fixture} {prio : List String} {now : ℚ}
    (h : (f.flash_override = true ∧ now < f.flash_override_end) ∨ f.name ∈ prio) :
    fixture_available prio now f = false := by
  unfold fixture_available
  rcases h with ⟨h1, h2⟩ | h
  · simp [h1, h2]
  · simp [h]

theorem not_targets_notWritesAt {g : Fixture} {j : ℤ}
    (h : ¬ fixture_targets g j) (l : List (String × ℤ)) : notWritesAt g l j := by
  intro p _ off hoff heq
  exact h ⟨(p.1, off), lookup_mem hoff, heq.symm⟩

theorem astf_unchanged {sc : List (String × ℤ)} {fi : ℚ} {j : ℤ} :
    ∀ (fixtures : List Fixture) (buf : Buffer),
      (∀ g ∈ fixtures, ¬ fixture_targets g j) →
      apply_scene_to_fixtures buf sc fixtures fi j = buf j := by
  intro fixtures
  induction fixtures with
  | nil => intro buf _; rfl
  | cons g t ih =>
    intro buf h
    show apply_scene_to_fixtures (apply_channels_to_fixture buf g _) sc t fi j = buf j
    rw [ih _ (fun q hq => h q (List.mem_cons_of_mem _ hq))]
    exact acf_unchanged _ _
      (not_targets_notWritesAt (h g (List.mem_cons_self _ _)) _)

/-- C3: a fixture under an active priority flash — flash override not
yet expired, or name in the global priority set — is skipped by the
sequence pass: `apply_sequence_step` leaves every buffer cell addressed
by that fixture unchanged (the other fixtures in the band being
address-disjoint from it, per the fixture-configuration invariant). -/
theorem flash_suppresses_sequence (buf : Buffer) (fixtures : List Fixture)
    (prio : List String) (now : ℚ) (sc : List (String × ℤ)) (i m : ℚ)
    (f : Fixture) (j : ℤ)
    (hf : f ∈ fixtures)
    (hflash : (f.flash_override = true ∧ now < f.flash_override_end) ∨
      f.name ∈ prio)
    (hdisj : ∀ g ∈ fixtures, g = f ∨
      ∀ k, fixture_targets g k → ¬ fixture_targets f k)
    (hj : fixture_targets f j) :
    apply_sequence_step buf fixtures prio now sc i m j = buf j := by
  unfold apply_sequence_step
  apply astf_unchanged
  intro g hg
  have hgf : g ∈ fixtures ∧ fixture_available prio now g = true := by
    unfold available_fixtures at hg
    have := List.mem_filter.mp hg
    exact ⟨this.1, this.2⟩
  have hne : g ≠ f := by
    intro he
    subst he
    rw [fixture_available_false hflash] at hgf
    simpa using hgf.2
  rcases hdisj g hgf.1 with he | hd
  · exact absurd he hne
  · exact fun ht => hd j ht hj

/-- Witness for C3: `flashed_fixture` (override active until t = 10,
addressing index 0) is skipped at t = 0 while `plain_fixture`
(index 8) runs the sequence. -/
theorem flash_suppresses_sequence_witness :
    apply_sequence_step emptyBuffer [flashed_fixture, plain_fixture] [] 0
      [("r", 255)] 1 1 0 = emptyBuffer 0 := by
  apply flash_suppresses_sequence emptyBuffer [flashed_fixture, plain_fixture]
    [] 0 [("r", 255)] 1 1 flashed_fixture 0
  · simp
  · exact Or.inl ⟨rfl, by norm_num [flashed_fixture]⟩
  · intro g hg
    simp only [List.mem_cons, List.not_mem_nil, or_false] at hg
    rcases hg with rfl | rfl
    · exact Or.inl rfl
    · right
      intro k hk hp
      simp [fixture_targets, plain_fixture] at hk
      simp [fixture_targets, flashed_fixture] at hp
      omega
  · exact ⟨("red", 1), by simp [flashed_fixture], by norm_num [flashed_fixture]⟩

/-- C5 counterexample: with band intensity `i = 1/2 ≥ 0.2` and
multiplier 1, the code writes `int(200 × 0.5) = 100` for scene value
200, not the claimed `clamp(round(200 × (0.25 + 0.75 × 0.5)), 0, 255)
= 125` — the modular scene/sequence path has no 25% intensity floor. -/
theorem intensity_floor_counterexample :
    (1/5 : ℚ) ≤ 1/2 ∧
    apply_sequence_step emptyBuffer [rgbw_fixture] [] 0 [("r", 200)]
      (1/2) 1 0 = 100 ∧
    spec_effective_value 200 (1/2) 1 = 125 ∧
    (100 : ℤ) ≠ 125 := by
  refine ⟨by norm_num, ?_, ?_, by decide⟩
  · simp only [apply_sequence_step, available_fixtures, List.filter,
      apply_scene_to_fixtures, List.foldl, scene_channels_to_apply, List.map,
      apply_channels_to_fixture, channel_mapping]
    norm_num [fixture_available, rgbw_fixture, pyInt, writeB, clamp255,
      emptyBuffer, max_def, min_def]
  · norm_num [spec_effective_value, max_def, min_def]

/-- C5 as amended: when a sequence step is applied with band intensity
`i` and step multiplier `m`, every scene channel value `v` is written
as `clamp(int(v × i × m), 0, 255)` with `int` truncating toward zero —
the effective intensity is `i × m` in all regimes, with no 25% floor. -/
theorem sequence_intensity_amended (buf : Buffer) (prio : List String)
    (now : ℚ) (f : Fixture) (i m : ℚ) (l₁ l₂ : List (String × ℤ))
    (c : String) (v off : ℤ)
    (havail : fixture_available prio now f = true)
    (hoff : List.lookup (channel_mapping c) f.channels = some off)
    (h0 : 0 ≤ f.startChannel + off - 2) (h512 : f.startChannel + off - 2 < 512)
    (hrest : notWritesAt f (scene_channels_to_apply l₂ (i * m))
      (f.startChannel + off - 2)) :
    apply_sequence_step buf [f] prio now (l₁ ++ (c, v) :: l₂) i m
      (f.startChannel + off - 2) = clamp255 (pyInt ((v : ℚ) * (i * m))) := by
  unfold apply_sequence_step available_fixtures
  rw [show List.filter (fixture_available prio now) [f] = [f] by simp [havail]]
  show apply_channels_to_fixture buf f
    (scene_channels_to_apply (l₁ ++ (c, v) :: l₂) (i * m)) _ = _
  unfold scene_channels_to_apply
  rw [List.map_append, List.map_cons]
  exact (acf_last_write buf f _ _ (channel_mapping c)
    (clamp255 (pyInt ((v : ℚ) * (i * m)))) off hoff h0 h512 hrest).trans
    (clamp255_idem _)

/-- Witness for C5 (amended) on `rgbw_fixture`: scene value 200 at
intensity 1/2, multiplier 1, writes 100 at index 0. -/
theorem sequence_intensity_amended_witness :
    apply_sequence_step emptyBuffer [rgbw_fixture] [] 0 [("r", 200)]
      (1/2) 1 0 = 100 := by
  have h := sequence_intensity_amended emptyBuffer [] 0 rgbw_fixture (1/2) 1
    [] [] "r" 200 1 (by decide) (by decide) (by decide) (by decide)
    (by intro p hp; simp [scene_channels_to_apply] at hp)
  norm_num [rgbw_fixture, pyInt, clamp255, max_def, min_def] at h
  exact h

/-- C6: `start_sequence` resets the step index to 0, stores the current
time as step entry time, and stores the raw intensity as both intensity
and base; `update_sequence_intensity` stores
`if intensity < 0.5 × base then intensity else max(intensity, base)`.
Both stored intensities therefore satisfy the spec clamping rule
relative to the stored `base_intensity`. -/
theorem start_update_intensity_clamping (sequences : List String)
    (name : String) (now i : ℚ) (st : SeqInfo) (info : SeqInfo)
    (h : start_sequence sequences name now i = some info) :
    info.step_index = 0 ∧ info.last_step_time = now ∧
    info.base_intensity = i ∧
    info.intensity = spec_clamp_rule i info.base_intensity ∧
    (update_sequence_intensity st i).intensity =
      spec_clamp_rule i st.base_intensity ∧
    (update_sequence_intensity st i).base_intensity = st.base_intensity := by
  unfold start_sequence at h
  by_cases hm : name ∈ sequences
  · rw [if_pos hm] at h
    injection h with h
    subst h
    refine ⟨rfl, rfl, rfl, ?_, ?_, rfl⟩
    · show i = spec_clamp_rule i i
      unfold spec_clamp_rule
      split
      · rfl
      · exact (max_self i).symm
    · show (if i < st.base_intensity * (1/2) then i
        else max i st.base_intensity) = spec_clamp_rule i st.base_intensity
      unfold spec_clamp_rule
      rw [mul_comm st.base_intensity]
  · rw [if_neg hm] at h
    exact absurd h (by simp)

/-- Witness for C6: a found sequence started at t = 5 with intensity
0.3, and an update against base intensity 1. -/
theorem start_update_intensity_clamping_witness :
    ((start_sequence ["bass-pulse"] "bass-pulse" 5 (3/10)).getD
      ⟨"", 0, 0, 0, 0⟩).step_index = 0 ∧
    (update_sequence_intensity ⟨"s", 0, 0, 1, 1⟩ (3/10)).intensity =
      spec_clamp_rule (3/10) 1 := by
  have h := start_update_intensity_clamping ["bass-pulse"] "bass-pulse" 5 (3/10)
    ⟨"s", 0, 0, 1, 1⟩
    ((start_sequence ["bass-pulse"] "bass-pulse" 5 (3/10)).getD ⟨"", 0, 0, 0, 0⟩)
    rfl
  exact ⟨h.1, h.2.2.2.2.1⟩

/-- C4 counterexample: with the default detector state
(`high_frequency_mode = true`, `threshold = 0.15`, `min_energy = 0.005`,
`refractory = 0.15`, fresh histories, `last_kick_time = 0`), the block at
`now = 0.12` with `env = 0.01` and `combined = 0.12` emits a kick via the
quick-detection path although `now - last_kick = 0.12 < refractory` and
`combined < threshold` — refuting "a kick is emitted only if
`combined > threshold` and `now − last_kick ≥ refractory`". -/
theorem kick_refractory_counterexample :
    (process_block_kick kick_state0 (1/100) (12/100) (12/100)).1 = true ∧
    ¬((12/100 : ℚ) - kick_state0.last_kick_time ≥ kick_state0.refractory) ∧
    ¬((12/100 : ℚ) > kick_state0.threshold) := by
  refine ⟨?_, by norm_num [kick_state0], by norm_num [kick_state0]⟩
  norm_num [process_block_kick, adaptive_threshold, deque_push, lastN,
    listMean, kick_state0]

/-- C4 as amended: a kick is emitted only via the quick path
(`high_frequency_mode`: `env > 0.5·min_energy`,
`combined > adaptive_threshold`, `now − last_kick > 0.7·refractory`) or
the normal path (`env > min_energy`, `now − last_kick > refractory`,
`combined > threshold`); on every emission `last_kick` is set to `now`,
so successive kicks are separated by more than `0.7 × refractory` (not
by the full refractory period). -/
theorem kick_emission_conditions (st : KickState) (env combined now : ℚ)
    (hr : 0 ≤ st.refractory)
    (hk : (process_block_kick st env combined now).1 = true) :
    (process_block_kick st env combined now).2.last_kick_time = now ∧
    now - st.last_kick_time > st.refractory * (7/10) ∧
    ((st.high_frequency_mode = true ∧ env > st.min_energy * (1/2) ∧
      combined > adaptive_threshold
        { st with env_history := deque_push 10 st.env_history env } ∧
      now - st.last_kick_time > st.refractory * (7/10)) ∨
     (env > st.min_energy ∧ now - st.last_kick_time > st.refractory ∧
      combined > st.threshold)) := by
  simp only [process_block_kick] at hk ⊢
  split at hk
  next h1 =>
    rw [if_pos h1]
    exact ⟨rfl, h1.2.2.2, Or.inl h1⟩
  next h1 =>
    rw [if_neg h1]
    split at hk
    next h2 =>
      rw [if_pos h2]
      refine ⟨rfl, ?_, Or.inr h2⟩
      have h3 := h2.2.1
      linarith
    next h2 =>
      rw [if_neg h2]
      exact absurd hk (by simp)

/-- Witness for C4 (amended): a fresh detector emitting at t = 1 with
strong envelope and score. -/
theorem kick_emission_conditions_witness :
    (process_block_kick kick_state0 1 1 1).2.last_kick_time = 1 ∧
    (1 : ℚ) - kick_state0.last_kick_time >
      kick_state0.refractory * (7/10) := by
  have hk : (process_block_kick kick_state0 1 1 1).1 = true := by
    norm_num [process_block_kick, adaptive_threshold, deque_push, lastN,
      listMean, kick_state0]
  have h := kick_emission_conditions kick_state0 1 1 1
    (by norm_num [kick_state0]) hk
  exact ⟨h.1, h.2.1⟩

theorem rate_limit_clamp (c q : ℚ) (hlo : 5/100 ≤ c) (hhi : c ≤ 7/10) :
    |max (5/100) (min (7/10)
      (if |q - c| > 3/100 then (if q > c then c + 3/100 else c - 3/100)
       else q)) - c| ≤ 3/100 ∧
    5/100 ≤ max (5/100) (min (7/10)
      (if |q - c| > 3/100 then (if q > c then c + 3/100 else c - 3/100)
       else q)) ∧
    max (5/100) (min (7/10)
      (if |q - c| > 3/100 then (if q > c then c + 3/100 else c - 3/100)
       else q)) ≤ 7/10 ∧
    (c ≤ q → c ≤ max (5/100) (min (7/10)
      (if |q - c| > 3/100 then (if q > c then c + 3/100 else c - 3/100)
       else q))) ∧
    (q ≤ c → max (5/100) (min (7/10)
      (if |q - c| > 3/100 then (if q > c then c + 3/100 else c - 3/100)
       else q)) ≤ c) := by
  set rl := (if |q - c| > 3/100 then (if q > c then c + 3/100 else c - 3/100)
    else q) with hrl
  have h1 : c - 3/100 ≤ rl := by
    rw [hrl]
    split
    · split <;> linarith
    · next h =>
      have := abs_le.mp (not_lt.mp h)
      linarith [this.1]
  have h2 : rl ≤ c + 3/100 := by
    rw [hrl]
    split
    · split <;> linarith
    · next h =>
      have := abs_le.mp (not_lt.mp h)
      linarith [this.2]
  have h3 : c ≤ q → c ≤ rl := by
    intro hcq
    rw [hrl]
    split
    · next hout =>
      split
      · linarith
      · next hin =>
        have hqc : q = c := le_antisymm (not_lt.mp hin) hcq
        rw [hqc] at hout
        norm_num at hout
    · linarith
  have h4 : q ≤ c → rl ≤ c := by
    intro hqc
    rw [hrl]
    split
    · next hout =>
      split
      · next hin => exact absurd hin (not_lt.mpr hqc)
      · linarith
    · linarith
  have hmin1 : c - 3/100 ≤ min (7/10) rl := le_min (by linarith) h1
  have hmin2 : min (7/10) rl ≤ c + 3/100 := le_trans (min_le_right _ _) h2
  have hlow : c - 3/100 ≤ max (5/100) (min (7/10) rl) :=
    le_trans hmin1 (le_max_right _ _)
  have hup : max (5/100) (min (7/10) rl) ≤ c + 3/100 :=
    max_le (by linarith) hmin2
  refine ⟨abs_le.mpr ⟨by linarith, by linarith⟩, le_max_left _ _,
    max_le (by norm_num) (min_le_left _ _), fun h => ?_, fun h => ?_⟩
  · exact le_trans (le_min hhi (h3 h)) (le_max_right _ _)
  · exact max_le hlo (le_trans (min_le_right _ _) (h4 h))

/-- C7: in auto mode, each adaptive-threshold update moves the stored
threshold by at most 0.03, moves it toward the proposal
`median + 0.15 × IQR` of the pushed level history, and lands in
`[0.05, 0.7]` (given the default-initialized value, which lies in that
range); a non-auto band is left untouched, and `set_threshold` marks
the band non-auto so subsequent automatic updates are skipped. -/
theorem auto_threshold_update_properties (st : ThresholdState) (level v : ℚ) :
    (st.auto = false → update_auto_threshold st level = st) ∧
    ((set_threshold st v).auto = false ∧
      update_auto_threshold (set_threshold st v) level = set_threshold st v) ∧
    (5/100 ≤ st.value → st.value ≤ 7/10 →
      |(update_auto_threshold st level).value - st.value| ≤ 3/100 ∧
      5/100 ≤ (update_auto_threshold st level).value ∧
      (update_auto_threshold st level).value ≤ 7/10 ∧
      (st.value ≤ np_percentile (deque_push 300 st.history level) 50 +
          (15/100) * (np_percentile (deque_push 300 st.history level) 75 -
            np_percentile (deque_push 300 st.history level) 25) →
        st.value ≤ (update_auto_threshold st level).value) ∧
      (np_percentile (deque_push 300 st.history level) 50 +
          (15/100) * (np_percentile (deque_push 300 st.history level) 75 -
            np_percentile (deque_push 300 st.history level) 25) ≤ st.value →
        (update_auto_threshold st level).value ≤ st.value)) := by
  refine ⟨fun h => ?_, ⟨rfl, ?_⟩, fun hlo hhi => ?_⟩
  · unfold update_auto_threshold
    rw [if_pos h]
  · unfold update_auto_threshold set_threshold
    simp
  · by_cases ha : st.auto = false
    · have hv : update_auto_threshold st level = st := by
        unfold update_auto_threshold
        rw [if_pos ha]
      rw [hv]
      exact ⟨by norm_num, hlo, hhi, fun _ => le_refl _, fun _ => le_refl _⟩
    · by_cases hlen : 100 ≤ (deque_push 300 st.history level).length
      · simp only [update_auto_threshold]
        rw [if_neg ha, if_pos hlen]
        exact rate_limit_clamp st.value _ hlo hhi
      · have hv : (update_auto_threshold st level).value = st.value := by
          simp only [update_auto_threshold]
          rw [if_neg ha, if_neg hlen]
        rw [hv]
        exact ⟨by norm_num, hlo, hhi, fun _ => le_refl _, fun _ => le_refl _⟩

/-- Witness for C7: a manually set band stays manual and skips the
update, and an in-range value (the Bass default 0.3) moves by at most
0.03 and stays in `[0.05, 0.7]`. -/
theorem auto_threshold_update_properties_witness :
    update_auto_threshold (set_threshold ⟨3/10, true, []⟩ (9/10)) (1/2) =
      set_threshold ⟨3/10, true, []⟩ (9/10) ∧
    |(update_auto_threshold ⟨3/10, true, []⟩ (1/2)).value - (3/10 : ℚ)| ≤
      3/100 ∧
    5/100 ≤ (update_auto_threshold ⟨3/10, true, []⟩ (1/2)).value ∧
    (update_auto_threshold ⟨3/10, true, []⟩ (1/2)).value ≤ 7/10 := by
  have h1 := auto_threshold_update_properties ⟨3/10, true, []⟩ (1/2) (9/10)
  have h2 := (h1.2.2 (by norm_num) (by norm_num))
  exact ⟨h1.2.1.2, h2.1, h2.2.1, h2.2.2.1⟩

theorem analyze_no_fade (st : FadeState) (level now : ℚ)
    (hin : st.in_fade = false) (hsd : 0 ≤ st.silence_duration)
    (hdt : st.last_update_time ≤ now)
    (hbound : st.silence_duration + (now - st.last_update_time) <
      st.fade_start_delay) :
    (analyze_fade_to_black st level now).2 = [] ∧
    (analyze_fade_to_black st level now).1.in_fade = false ∧
    0 ≤ (analyze_fade_to_black st level now).1.silence_duration ∧
    (analyze_fade_to_black st level now).1.silence_duration ≤
      st.silence_duration + (now - st.last_update_time) ∧
    (analyze_fade_to_black st level now).1.last_update_time = now ∧
    (analyze_fade_to_black st level now).1.fade_start_delay =
      st.fade_start_delay := by
  by_cases hq : level < st.silence_threshold
  · have heq : analyze_fade_to_black st level now =
        ({ silence_duration :=
              st.silence_duration + (now - st.last_update_time),
           silence_threshold := st.silence_threshold,
           fade_start_delay := st.fade_start_delay,
           fade_duration := st.fade_duration,
           in_fade := st.in_fade,
           fade_start_time := st.fade_start_time,
           last_update_time := now }, []) := by
      simp only [analyze_fade_to_black]
      rw [if_pos hq]
      split_ifs <;>
        first
          | rfl
          | (exfalso; simp_all; try linarith)
    rw [heq]
    refine ⟨rfl, hin, ?_, le_refl _, rfl, rfl⟩
    show (0 : ℚ) ≤ st.silence_duration + (now - st.last_update_time)
    linarith
  · have heq : analyze_fade_to_black st level now =
        ({ silence_duration := 0,
           silence_threshold := st.silence_threshold,
           fade_start_delay := st.fade_start_delay,
           fade_duration := st.fade_duration,
           in_fade := false,
           fade_start_time := st.fade_start_time,
           last_update_time := now }, []) := by
      simp only [analyze_fade_to_black]
      rw [if_neg hq]
      split_ifs <;>
        first
          | rfl
          | (exfalso; simp_all; try linarith)
    rw [heq]
    refine ⟨rfl, rfl, le_refl _, ?_, rfl, rfl⟩
    show (0 : ℚ) ≤ st.silence_duration + (now - st.last_update_time)
    linarith

theorem le_last_time : ∀ (steps : List (ℚ × ℚ)) (t : ℚ),
    times_mono t steps → t ≤ last_time t steps := by
  intro steps
  induction steps with
  | nil => exact fun t _ => le_refl t
  | cons p rest ih =>
    intro t h
    obtain ⟨l, n⟩ := p
    obtain ⟨h1, h2⟩ := h
    exact le_trans h1 (ih n h2)

theorem run_fade_no_events : ∀ (steps : List (ℚ × ℚ)) (st : FadeState),
    st.in_fade = false → 0 ≤ st.silence_duration →
    times_mono st.last_update_time steps →
    st.silence_duration +
      (last_time st.last_update_time steps - st.last_update_time) <
      st.fade_start_delay →
    (run_fade st steps).2 = [] := by
  intro steps
  induction steps with
  | nil => intro st _ _ _ _; rfl
  | cons p rest ih =>
    intro st hin hsd hmono hbound
    obtain ⟨level, now⟩ := p
    obtain ⟨ht1, ht2⟩ := hmono
    have hlast : now ≤ last_time now rest := le_last_time rest now ht2
    have hlast_eq :
        last_time st.last_update_time ((level, now) :: rest) =
          last_time now rest := rfl
    rw [hlast_eq] at hbound
    have hb1 : st.silence_duration + (now - st.last_update_time) <
        st.fade_start_delay := by linarith
    obtain ⟨he, hf, hs0, hsle, hlut, hdelay⟩ :=
      analyze_no_fade st level now hin hsd ht1 hb1
    show ((analyze_fade_to_black st level now).2 ++
      (run_fade (analyze_fade_to_black st level now).1 rest).2) = []
    rw [he, List.nil_append]
    apply ih
    · exact hf
    · exact hs0
    · rw [hlut]; exact ht2
    · rw [hlut, hdelay]
      have : last_time now rest - now ≥ 0 := by linarith
      linarith

/-- C9: any level at or above the silence threshold resets the silence
counter to zero and clears `in_fade` — cancelling even an in-progress
fade — and emits nothing; from that reset state, no fade event is
emitted while the accumulated silence time stays below the 3-second
start delay. -/
theorem fade_reset_on_signal (st : FadeState) (level now : ℚ)
    (steps : List (ℚ × ℚ)) :
    (st.silence_threshold ≤ level →
      (analyze_fade_to_black st level now).1.silence_duration = 0 ∧
      (analyze_fade_to_black st level now).1.in_fade = false ∧
      (analyze_fade_to_black st level now).2 = []) ∧
    (st.in_fade = false → st.silence_duration = 0 →
      times_mono st.last_update_time steps →
      last_time st.last_update_time steps - st.last_update_time <
        st.fade_start_delay →
      (run_fade st steps).2 = []) := by
  constructor
  · intro hl
    have hq : ¬(level < st.silence_threshold) := not_lt.mpr hl
    simp only [analyze_fade_to_black]
    rw [if_neg hq, if_neg (by simp)]
    exact ⟨rfl, rfl, rfl⟩
  · intro hin hsd hmono hbound
    exact run_fade_no_events steps st hin (by rw [hsd])
      hmono (by rw [hsd]; linarith)

/-- Witness for C9: the default fade state, a level 0.1 ≥ 0.05 at t = 1,
and two quiet samples at t = 1, 2 (total silence 2 s < 3 s). -/
theorem fade_reset_on_signal_witness :
    (analyze_fade_to_black fade_state0 (1/10) 1).2 = [] ∧
    (run_fade fade_state0 [(0, 1), (0, 2)]).2 = [] := by
  have h := fade_reset_on_signal fade_state0 (1/10) 1 [(0, 1), (0, 2)]
  refine ⟨(h.1 (by norm_num [fade_state0])).2.2, h.2 rfl rfl ?_ ?_⟩
  · exact ⟨by norm_num [fade_state0], by norm_num, trivial⟩
  · norm_num [last_time, fade_state0]

/-- C10: `configure_kick_flash` updates the in-memory configuration
(e.g. the clamped intensity and the enabled flag) but never persists
it: `save_config` hands `save_json` the filepath string as `data` and
the config dictionary as `filepath` (the parameters are swapped
relative to `save_json(data, filepath)`), so `save_json` raises
internally (`os.path.dirname` of a dict), catches the exception,
returns `False`, and the file system is left unchanged. -/
theorem configure_kick_flash_never_persists (fs : FileSystem)
    (cfg : KickFlashConfig) (scenes : Option (List String))
    (mode : Option String) (intensity : Option ℚ) (enabled : Option Bool) :
    (configure_kick_flash fs cfg scenes mode intensity enabled).2.2 = fs ∧
    (configure_kick_flash fs cfg scenes mode intensity enabled).2.1 = false ∧
    (∀ cfg2, save_config fs cfg2 = (false, fs)) ∧
    (∀ i, intensity = some i →
      (configure_kick_flash fs cfg scenes mode intensity enabled).1.intensity =
        max 0 (min 1 i)) ∧
    (∀ e, enabled = some e →
      (configure_kick_flash fs cfg scenes mode intensity enabled).1.enabled =
        e) := by
  refine ⟨rfl, rfl, fun cfg2 => rfl, fun i hi => ?_, fun e he => ?_⟩
  · subst hi
    cases enabled <;> rfl
  · subst he
    rfl

/-- Witness for C10: enabling with intensity 2 (clamped to 1) on an
empty file system with the default configuration. -/
theorem configure_kick_flash_never_persists_witness :
    (configure_kick_flash [] {} Option.none Option.none (some 2)
      (some true)).2.2 = [] ∧
    (configure_kick_flash [] {} Option.none Option.none (some 2)
      (some true)).2.1 = false ∧
    (configure_kick_flash [] {} Option.none Option.none (some 2)
      (some true)).1.intensity = max 0 (min 1 2) ∧
    (configure_kick_flash [] {} Option.none Option.none (some 2)
      (some true)).1.enabled = true := by
  have h := configure_kick_flash_never_persists [] {} Option.none Option.none
    (some 2) (some true)
  exact ⟨h.1, h.2.1, h.2.2.2.1 2 rfl, h.2.2.2.2 true rfl⟩

/-- C1 (code evaluation at the failing input): with the default
kick-flash configuration, one kick-responsive fixture and a clean
buffer, `send_kick_flash` returns `False` without painting any channel
into the DMX buffer and without installing any decay record — because
its write call passes `force=True` to
`DMXController.apply_channels_to_fixture`, whose signature
(dmx_controller.py:112) has no `force` parameter, so the call raises
`TypeError`, swallowed by the surrounding `except`. -/
theorem kick_flash_force_typeerror :
    (send_kick_flash manager_state0 0 0 Option.none).1 = false ∧
    (∀ j : ℤ, (send_kick_flash manager_state0 0 0 Option.none).2.buffer j =
      emptyBuffer j) ∧
    ((send_kick_flash manager_state0 0 0 Option.none).2.fixtures.all
      (fun f => f.decay = Option.none)) = true := by
  exact ⟨rfl, fun j => rfl, rfl⟩

end LLS
